/-
Verification of `format-sudoku-simple.py`.

The script reads lines from stdin, parses each as an integer, partitions the
in-range values (0..99) into grids using the sentinel markers 100 and 200,
and pretty-prints up to two collected grids.  We embed the script shallowly:

* `pyInt?` models Python's `int(line)` on an already-stripped line
  (optional sign followed by decimal digits; on failure the script's
  `except ValueError: continue` corresponds to `none`).
* `CollectState` holds the two mutable locals of `format_sudoku`
  (`current_grid` and `grids`; the local `numbers` in the source is never
  used and is omitted).
* `processLine` is one iteration of the `for line in sys.stdin` loop,
  `collect` is the whole loop followed by the end-of-stream flush.
* `print_grid` and `format_sudoku` return the printed output as a list of
  lines (each `print` contributes its text split at embedded newlines).
-/
import Mathlib

set_option maxRecDepth 8000

namespace FormatSudoku

/-- Models Python's `line.strip()`: remove leading and trailing whitespace
(line 49 of the source). -/
def pyStrip (s : String) : String :=
  String.mk
    (((s.data.dropWhile Char.isWhitespace).reverse.dropWhile Char.isWhitespace).reverse)

/-- Value of a decimal digit character. -/
def digitVal (c : Char) : Nat := c.toNat - 48

/-- Parse a nonempty all-digit character list as a decimal natural number. -/
def parseDigits (cs : List Char) : Option Nat :=
  if cs.isEmpty || !(cs.all Char.isDigit) then none
  else some (cs.foldl (fun acc c => acc * 10 + digitVal c) 0)

/-- Models Python's `int(s)` on a stripped line: an optional `-`/`+` sign
followed by one or more decimal digits; anything else raises `ValueError`,
modelled as `none`. -/
def pyInt? (s : String) : Option Int :=
  match s.data with
  | [] => none
  | c :: rest =>
    if c = '-' then (parseDigits rest).map (fun n => -(n : Int))
    else if c = '+' then (parseDigits rest).map (fun n => (n : Int))
    else (parseDigits (c :: rest)).map (fun n => (n : Int))

/-- The mutable locals of `format_sudoku`: the accumulation buffer
`current_grid` and the collection `grids`. -/
structure CollectState where
  current_grid : List Int
  grids : List (List Int)
deriving DecidableEq, Repr

/-- Both locals start empty (lines 44-45 of the source). -/
def initState : CollectState := ⟨[], []⟩

/-- The body of the loop once a line has parsed to the integer `num`
(lines 56-80 of the source). -/
def processNum (st : CollectState) (num : Int) : CollectState :=
  if num = 100 then
    ⟨[], if st.current_grid ≠ [] then st.grids ++ [st.current_grid] else st.grids⟩
  else if num = 200 then
    ⟨[], if st.current_grid ≠ [] ∧ 81 ≤ st.current_grid.length then
          st.grids ++ [st.current_grid.take 81]
        else st.grids⟩
  else if num < 0 ∨ (100 ≤ num ∧ num ≠ 200) then st
  else
    if 81 ≤ (st.current_grid ++ [num]).length then
      ⟨[], st.grids ++ [(st.current_grid ++ [num]).take 81]⟩
    else ⟨st.current_grid ++ [num], st.grids⟩

/-- One iteration of `for line in sys.stdin` (lines 48-83): strip the line,
skip it when blank or unparseable, otherwise process the parsed integer. -/
def processLine (st : CollectState) (rawLine : String) : CollectState :=
  let line := pyStrip rawLine
  if line = "" then st
  else
    match pyInt? line with
    | none => st
    | some num => processNum st num

/-- The collection loop of `format_sudoku` over the whole input, followed by
the end-of-stream flush (lines 48-87). -/
def collect (lines : List String) : List (List Int) :=
  let st := lines.foldl processLine initState
  if st.current_grid ≠ [] ∧ 81 ≤ st.current_grid.length then
    st.grids ++ [st.current_grid.take 81]
  else st.grids

/-- `"=" * 37` (lines 12, 14, 39). -/
def eqLine : String := String.mk (List.replicate 37 '=')

/-- The literal block-separator row printed between 3x3 bands (line 19). -/
def dashLine : String := "-----------------------------------"

/-- The display value of cell `idx`: the stored integer rendered in decimal,
with `.` substituted for a stored 0 or for an index beyond the grid's length
(lines 25-30). -/
def displayVal (grid : List Int) (idx : Nat) : String :=
  match grid[idx]? with
  | some v => if v = 0 then "." else toString v
  | none => "."

/-- Python's format spec `:>2`: right-align in a field of minimum width 2. -/
def padLeft2 (s : String) : String :=
  if s.length < 2 then String.mk (List.replicate (2 - s.length) ' ') ++ s else s

/-- One formatted cell: `f"{display_val:>2} "` (line 34). -/
def cellStr (grid : List Int) (idx : Nat) : String :=
  padLeft2 (displayVal grid idx) ++ " "

/-- One formatted row of the table (lines 22-36): leading `"| "`, a `"| "`
separator before columns 3 and 6, nine cells, trailing `"|"`. -/
def rowStr (grid : List Int) (i : Nat) : String :=
  ((List.range 9).foldl
    (fun acc j =>
      (if 0 < j ∧ j % 3 = 0 then acc ++ "| " else acc) ++ cellStr grid (i * 9 + j))
    "| ") ++ "|"

/-- `print_grid` (lines 10-40), with the printed text returned as a list of
lines: `print("\n" + "=" * 37)` contributes the lines `""` and `eqLine`, the
final `print()` contributes `""`. -/
def print_grid (label : String) (grid : List Int) : List String :=
  ["", eqLine, label, eqLine] ++
  ((List.range 9).foldl
    (fun acc i =>
      acc ++ (if 0 < i ∧ i % 3 = 0 then [dashLine] else []) ++ [rowStr grid i])
    []) ++
  [eqLine, ""]

/-- The note printed when only an initial grid of length 81 was collected
(line 96); `print("\nПримечание: ...")` contributes a blank line first. -/
def noteLine : String := "Примечание: Решенная сетка не найдена"

/-- The driver part of `format_sudoku` (lines 89-96): collect the grids from
the input lines, render the first (label `"Начальная сетка:"`, Russian for
"Initial grid:") when present, render the second (label `"Решенная сетка:"`,
Russian for "Solved grid:") when present, else print the missing-solved-grid
note when exactly one grid of length exactly 81 was collected. -/
def format_sudoku (lines : List String) : List String :=
  let grids := collect lines
  (if 1 ≤ grids.length then print_grid "Начальная сетка:" (grids.getD 0 []) else []) ++
  (if 2 ≤ grids.length then print_grid "Решенная сетка:" (grids.getD 1 [])
   else if grids.length = 1 ∧ (grids.getD 0 []).length = 81 then ["", noteLine]
   else [])

/-! ### Basic lemmas about the collector -/

lemma pyInt?_ne_empty {s : String} {n : Int} (h : pyInt? s = some n) : s ≠ "" := by
  intro he
  subst he
  rw [show pyInt? "" = none from rfl] at h
  exact Option.noConfusion h

lemma processLine_parsed (st : CollectState) (l : String) (n : Int)
    (h : pyInt? (pyStrip l) = some n) : processLine st l = processNum st n := by
  unfold processLine
  simp only [if_neg (pyInt?_ne_empty h), h]

lemma processLine_blank (st : CollectState) (l : String) (h : pyStrip l = "") :
    processLine st l = st := by
  simp [processLine, h]

lemma processLine_noparse (st : CollectState) (l : String)
    (h : pyInt? (pyStrip l) = none) : processLine st l = st := by
  unfold processLine
  by_cases he : pyStrip l = "" <;> simp [he, h]

lemma processNum_100 (st : CollectState) :
    processNum st 100 =
      ⟨[], if st.current_grid ≠ [] then st.grids ++ [st.current_grid] else st.grids⟩ :=
  rfl

lemma processNum_200 (st : CollectState) :
    processNum st 200 =
      ⟨[], if st.current_grid ≠ [] ∧ 81 ≤ st.current_grid.length then
            st.grids ++ [st.current_grid.take 81]
          else st.grids⟩ :=
  rfl

lemma processNum_noise (st : CollectState) (n : Int) (h1 : n ≠ 100) (h2 : n ≠ 200)
    (h3 : n < 0 ∨ 100 ≤ n) : processNum st n = st := by
  unfold processNum
  rw [if_neg h1, if_neg h2, if_pos]
  rcases h3 with h3 | h3
  · exact Or.inl h3
  · exact Or.inr ⟨h3, h2⟩

lemma processNum_cell (st : CollectState) (n : Int) (h0 : 0 ≤ n) (h1 : n < 100) :
    processNum st n =
      if 81 ≤ (st.current_grid ++ [n]).length then
        ⟨[], st.grids ++ [(st.current_grid ++ [n]).take 81]⟩
      else ⟨st.current_grid ++ [n], st.grids⟩ := by
  unfold processNum
  rw [if_neg (by omega), if_neg (by omega), if_neg (by push_neg; exact ⟨h0, fun h => by omega⟩)]

/-- The loop invariant on the collector state: the buffer holds at most 80
values, all buffered and collected values are in 0..99, and every collected
grid is nonempty with at most 81 cells. -/
def Inv (st : CollectState) : Prop :=
  st.current_grid.length ≤ 80 ∧
  (∀ v ∈ st.current_grid, 0 ≤ v ∧ v < 100) ∧
  (∀ g ∈ st.grids, (1 ≤ g.length ∧ g.length ≤ 81) ∧ ∀ v ∈ g, 0 ≤ v ∧ v < 100)

lemma inv_initState : Inv initState := by
  refine ⟨by simp [initState], ?_, ?_⟩ <;> simp [initState]

lemma inv_processNum {st : CollectState} (h : Inv st) (n : Int) :
    Inv (processNum st n) := by
  obtain ⟨hb, hv, hg⟩ := h
  unfold processNum
  split
  · -- num = 100
    refine ⟨by simp, by simp, ?_⟩
    split
    · rename_i hne
      rw [List.forall_mem_append]
      refine ⟨hg, ?_⟩
      simp only [List.mem_singleton, forall_eq]
      exact ⟨⟨List.length_pos.mpr hne, by omega⟩, hv⟩
    · exact hg
  split
  · -- num = 200
    split
    · rename_i hc
      omega
    · exact ⟨by simp, by simp, hg⟩
  split
  · -- noise value
    exact ⟨hb, hv, hg⟩
  · -- in-range cell value
    rename_i h100 h200 hno
    push_neg at hno
    have hn : 0 ≤ n ∧ n < 100 := by
      refine ⟨hno.1, ?_⟩
      rcases lt_or_le n 100 with h | h
      · exact h
      · exact absurd (hno.2 h) (by simpa using h200)
    have hmem : ∀ v ∈ st.current_grid ++ [n], 0 ≤ v ∧ v < 100 := by
      rw [List.forall_mem_append]
      exact ⟨hv, by simpa using hn⟩
    split
    · rename_i hlen
      refine ⟨by simp, by simp, ?_⟩
      rw [List.forall_mem_append]
      refine ⟨hg, ?_⟩
      simp only [List.mem_singleton, forall_eq]
      refine ⟨⟨?_, ?_⟩, fun v hv' => hmem v (List.take_subset _ _ hv')⟩
      · simp only [List.length_take, List.length_append, List.length_singleton]
        omega
      · simp [List.length_take]
    · rename_i hlen
      simp only [List.length_append, List.length_singleton, not_le] at hlen
      exact ⟨by simp only [List.length_append, List.length_singleton]; omega, hmem, hg⟩

lemma inv_processLine {st : CollectState} (h : Inv st) (l : String) :
    Inv (processLine st l) := by
  rcases hp : pyInt? (pyStrip l) with _ | n
  · rw [processLine_noparse st l hp]
    exact h
  · rw [processLine_parsed st l n hp]
    exact inv_processNum h n

lemma inv_foldl : ∀ (lines : List String) (st : CollectState), Inv st →
    Inv (lines.foldl processLine st)
  | [], _, h => h
  | l :: ls, st, h => by
    rw [List.foldl_cons]
    exact inv_foldl ls _ (inv_processLine h l)

lemma buffer_le_80 (lines : List String) :
    (lines.foldl processLine initState).current_grid.length ≤ 80 :=
  (inv_foldl lines initState inv_initState).1

/-- The end-of-stream flush never fires: the buffer never reaches 81 values. -/
lemma collect_eq_grids (lines : List String) :
    collect lines = (lines.foldl processLine initState).grids := by
  unfold collect
  rw [if_neg]
  rintro ⟨-, h81⟩
  have := buffer_le_80 lines
  omega

lemma mem_collect {lines : List String} {g : List Int} (h : g ∈ collect lines) :
    (1 ≤ g.length ∧ g.length ≤ 81) ∧ ∀ v ∈ g, 0 ≤ v ∧ v < 100 := by
  rw [collect_eq_grids] at h
  exact (inv_foldl lines initState inv_initState).2.2 g h

/-! ### Counting collected grids -/

/-- Number of grids the state can still contribute: the collected ones plus
one for a nonempty buffer. -/
def stCount (st : CollectState) : Nat :=
  st.grids.length + (if st.current_grid = [] then 0 else 1)

lemma stCount_processNum (st : CollectState) (n : Int) :
    stCount (processNum st n) ≤ stCount st + 1 := by
  unfold processNum stCount
  split
  · split <;> split <;> (simp_all; try omega)
  split
  · split <;> split <;> (simp_all; try omega)
  split
  · omega
  · split <;> split <;> (simp_all; try omega)

lemma stCount_processLine (st : CollectState) (l : String) :
    stCount (processLine st l) ≤ stCount st + 1 := by
  rcases hp : pyInt? (pyStrip l) with _ | n
  · rw [processLine_noparse st l hp]
    omega
  · rw [processLine_parsed st l n hp]
    exact stCount_processNum st n

lemma stCount_foldl : ∀ (lines : List String) (st : CollectState),
    stCount (lines.foldl processLine st) ≤ stCount st + lines.length
  | [], _ => by simp
  | l :: ls, st => by
    rw [List.foldl_cons]
    have h1 := stCount_foldl ls (processLine st l)
    have h2 := stCount_processLine st l
    simp only [List.length_cons]
    omega

/-! ### Which grids get appended, and by which branch -/

lemma processNum_grids_classify (st : CollectState) (n : Int) :
    (processNum st n).grids = st.grids ∨
      ∃ g, (processNum st n).grids = st.grids ++ [g] ∧
        (g.length = 81 ∨ (n = 100 ∧ g = st.current_grid ∧ st.current_grid ≠ [])) := by
  unfold processNum
  split
  · rename_i h100
    split
    · rename_i hne
      exact Or.inr ⟨st.current_grid, rfl, Or.inr ⟨h100, rfl, hne⟩⟩
    · exact Or.inl rfl
  split
  · split
    · rename_i hc
      refine Or.inr ⟨st.current_grid.take 81, rfl, Or.inl ?_⟩
      simp only [List.length_take]
      omega
    · exact Or.inl rfl
  split
  · exact Or.inl rfl
  · split
    · rename_i hlen
      refine Or.inr ⟨(st.current_grid ++ [n]).take 81, rfl, Or.inl ?_⟩
      simp only [List.length_take]
      omega
    · exact Or.inl rfl

lemma processLine_grids_classify (st : CollectState) (l : String) :
    (processLine st l).grids = st.grids ∨
      ∃ g, (processLine st l).grids = st.grids ++ [g] ∧
        (g.length = 81 ∨
          (pyInt? (pyStrip l) = some 100 ∧ g = st.current_grid ∧ st.current_grid ≠ [])) := by
  rcases hp : pyInt? (pyStrip l) with _ | n
  · rw [processLine_noparse st l hp]
    exact Or.inl rfl
  · rw [processLine_parsed st l n hp]
    rcases processNum_grids_classify st n with h | ⟨g, hg, hcase⟩
    · exact Or.inl h
    · refine Or.inr ⟨g, hg, ?_⟩
      rcases hcase with h81 | ⟨h100, hrest⟩
      · exact Or.inl h81
      · subst h100
        exact Or.inr ⟨rfl, hrest⟩

/-! ### The driver's case analysis -/

lemma getD_of_getElem? {α} {l : List α} {n : Nat} {a : α} (d : α) (h : l[n]? = some a) :
    l.getD n d = a := by
  simp [List.getD, h]

lemma format_sudoku_zero {lines : List String} (h : (collect lines).length = 0) :
    format_sudoku lines = [] := by
  simp only [format_sudoku]
  rw [if_neg (by omega), if_neg (by omega), if_neg (by rintro ⟨h1, -⟩; omega)]
  simp

lemma format_sudoku_one_81 {lines : List String} (h1 : (collect lines).length = 1)
    (h2 : ((collect lines).getD 0 []).length = 81) :
    format_sudoku lines =
      print_grid "Начальная сетка:" ((collect lines).getD 0 []) ++ ["", noteLine] := by
  simp only [format_sudoku]
  rw [if_pos (by omega), if_neg (by omega), if_pos ⟨h1, h2⟩]

lemma format_sudoku_one_short {lines : List String} (h1 : (collect lines).length = 1)
    (h2 : ((collect lines).getD 0 []).length ≠ 81) :
    format_sudoku lines = print_grid "Начальная сетка:" ((collect lines).getD 0 []) := by
  simp only [format_sudoku]
  rw [if_pos (by omega), if_neg (by omega), if_neg (by rintro ⟨-, hc⟩; exact h2 hc)]
  simp

lemma format_sudoku_two {lines : List String} (h : 2 ≤ (collect lines).length) :
    format_sudoku lines =
      print_grid "Начальная сетка:" ((collect lines).getD 0 []) ++
        print_grid "Решенная сетка:" ((collect lines).getD 1 []) := by
  simp only [format_sudoku]
  rw [if_pos (by omega), if_pos h]

lemma print_grid_getLast? (label : String) (grid : List Int) :
    (print_grid label grid).getLast? = some "" := by
  unfold print_grid
  rw [List.getLast?_append_of_ne_nil _ (by simp : ([eqLine, ""] : List String) ≠ [])]
  rfl

/-! ### Runs of in-range cell values -/

/-- The integer contributed by a line (0 as a junk default). -/
def cellVal (l : String) : Int := (pyInt? (pyStrip l)).getD 0

/-- A line that parses to an in-range cell value 0..99: neither a marker nor
noise, so the collector appends it to the buffer. -/
def isCellLine (l : String) : Bool :=
  match pyInt? (pyStrip l) with
  | some n => decide (0 ≤ n ∧ n < 100)
  | none => false

lemma isCellLine_iff {l : String} :
    isCellLine l = true ↔ ∃ n, pyInt? (pyStrip l) = some n ∧ 0 ≤ n ∧ n < 100 := by
  unfold isCellLine
  rcases hp : pyInt? (pyStrip l) with _ | n <;> simp [hp]

lemma foldl_cells : ∀ (lines : List String) (st : CollectState),
    (∀ l ∈ lines, isCellLine l = true) →
    st.current_grid.length + lines.length ≤ 81 →
    st.current_grid.length ≤ 80 →
    lines.foldl processLine st =
      if st.current_grid.length + lines.length = 81 then
        ⟨[], st.grids ++ [st.current_grid ++ lines.map cellVal]⟩
      else ⟨st.current_grid ++ lines.map cellVal, st.grids⟩
  | [], st, _, _, hlt => by
    simp only [List.foldl_nil, List.length_nil, Nat.add_zero, List.map_nil, List.append_nil]
    rw [if_neg (by omega)]
  | l :: ls, st, hall, hsum, hlt => by
    obtain ⟨n, hp, h0, h1⟩ := isCellLine_iff.mp (hall l (List.mem_cons_self l ls))
    have hcv : cellVal l = n := by simp [cellVal, hp]
    rw [List.foldl_cons, processLine_parsed st l n hp, processNum_cell st n h0 h1]
    simp only [List.length_cons] at hsum
    by_cases hfl : 81 ≤ (st.current_grid ++ [n]).length
    · rw [if_pos hfl]
      simp only [List.length_append, List.length_singleton] at hfl
      have hls : ls = [] := List.length_eq_zero.mp (by omega)
      subst hls
      rw [List.foldl_nil, if_pos (by simp only [List.length_cons, List.length_nil]; omega)]
      have htake : (st.current_grid ++ [n]).take 81 = st.current_grid ++ [n] :=
        List.take_of_length_le (by simp only [List.length_append, List.length_singleton]; omega)
      rw [htake]
      simp [hcv]
    · rw [if_neg hfl]
      simp only [List.length_append, List.length_singleton, not_le] at hfl
      rw [foldl_cells ls ⟨st.current_grid ++ [n], st.grids⟩
        (fun x hx => hall x (List.mem_cons_of_mem l hx))
        (by simp only [List.length_append, List.length_singleton]; omega)
        (by simp only [List.length_append, List.length_singleton]; omega)]
      by_cases hc : st.current_grid.length + (ls.length + 1) = 81
      · rw [if_pos (by simp only [List.length_append, List.length_singleton]; omega),
          if_pos (by simp only [List.length_cons]; omega)]
        simp [hcv, List.append_assoc]
      · rw [if_neg (by simp only [List.length_append, List.length_singleton]; omega),
          if_neg (by simp only [List.length_cons]; omega)]
        simp [hcv, List.append_assoc]

/-! ### The claims -/

/-- C1 (amended): for every input stream the collector produces an ordered
sequence of grids whose count is bounded only by the number of input lines,
not by 2; the claim that at most 2 grids can ever be collected is refuted by
`claim_C1_counterexample`. -/
theorem claim_C1_collect_count_le_lines (lines : List String) :
    (collect lines).length ≤ lines.length := by
  rw [collect_eq_grids]
  have h1 := stCount_foldl lines initState
  have h2 : (lines.foldl processLine initState).grids.length ≤
      stCount (lines.foldl processLine initState) := by
    unfold stCount
    split <;> omega
  have h3 : stCount initState = 0 := by simp [stCount, initState]
  omega

/-- C1 counterexample: the six-line input `1,100,2,100,3,100` makes the
collection loop collect three grids, so "no input can cause 3 or more grids
to be collected" is false. -/
theorem claim_C1_counterexample :
    (collect ["1", "100", "2", "100", "3", "100"]).length = 3 := by decide

/-- C2 (amended): a processing step appends at most one grid, and any
appended grid either has exactly 81 cells (the 200-marker, 81st-value and
end-of-stream flushes all truncate a buffer of ≥81 values) or comes from the
100-marker flush, which appends the nonempty buffer exactly as it stands;
consequently every collected grid has between 1 and 81 cells, but not
necessarily exactly 81. -/
theorem claim_C2_collected_grid_shapes :
    (∀ (st : CollectState) (l : String),
      (processLine st l).grids = st.grids ∨
        ∃ g, (processLine st l).grids = st.grids ++ [g] ∧
          (g.length = 81 ∨
            (pyInt? (pyStrip l) = some 100 ∧ g = st.current_grid ∧
              st.current_grid ≠ []))) ∧
    (∀ (lines : List String) (g : List Int),
      g ∈ collect lines → 1 ≤ g.length ∧ g.length ≤ 81) :=
  ⟨processLine_grids_classify, fun _ _ h => (mem_collect h).1⟩

/-- C2 witness: the membership hypothesis of the second conjunct is
satisfiable. -/
theorem claim_C2_witness :
    [(2 : Int)] ∈ collect ["2", "100"] ∧
      1 ≤ [(2 : Int)].length ∧ [(2 : Int)].length ≤ 81 :=
  ⟨by decide, claim_C2_collected_grid_shapes.2 ["2", "100"] [2] (by decide)⟩

/-- C2 counterexample: the input `2,100` collects the single grid `[2]`,
which has 1 cell, not 81 — the 100-marker flush does not truncate or require
81 values. -/
theorem claim_C2_counterexample :
    collect ["2", "100"] = [[2]] ∧
      ¬ ∀ g ∈ collect ["2", "100"], g.length = 81 := by
  refine ⟨by decide, ?_⟩
  intro h
  exact absurd (h [2] (by decide)) (by decide)

/-- C4: after each processed line the accumulation buffer holds at most 80
values; the end-of-stream flush never appends (the collection equals the
fold's `grids` field); the 200-marker flush never appends at any reachable
state; any grid appended by a step from a reachable state has exactly 81
cells or comes from the 100-marker flush with 1..80 cells; and every grid in
the final collection is nonempty with at most 81 cells. -/
theorem claim_C4_buffer_invariant :
    (∀ lines : List String,
      (lines.foldl processLine initState).current_grid.length ≤ 80) ∧
    (∀ lines : List String,
      collect lines = (lines.foldl processLine initState).grids) ∧
    (∀ (lines : List String) (l : String),
      pyInt? (pyStrip l) = some 200 →
      (processLine (lines.foldl processLine initState) l).grids =
        (lines.foldl processLine initState).grids) ∧
    (∀ (lines : List String) (l : String) (g : List Int),
      (processLine (lines.foldl processLine initState) l).grids =
        (lines.foldl processLine initState).grids ++ [g] →
      g.length = 81 ∨ (pyInt? (pyStrip l) = some 100 ∧ 1 ≤ g.length ∧ g.length ≤ 80)) ∧
    (∀ (lines : List String) (g : List Int),
      g ∈ collect lines → 1 ≤ g.length ∧ g.length ≤ 81) := by
  refine ⟨buffer_le_80, collect_eq_grids, ?_, ?_, fun _ _ h => (mem_collect h).1⟩
  · intro lines l h
    rw [processLine_parsed _ l 200 h, processNum_200]
    rw [if_neg]
    rintro ⟨-, h81⟩
    have := buffer_le_80 lines
    omega
  · intro lines l g h
    rcases processLine_grids_classify (lines.foldl processLine initState) l with hc | ⟨g', hg', hcase⟩
    · rw [hc] at h
      have := congrArg List.length h
      simp at this
    · rw [hg'] at h
      have hgg : g = g' := by
        have := List.append_cancel_left h
        exact (List.singleton_injective this).symm
      subst hgg
      rcases hcase with h81 | ⟨h100, hbuf, hne⟩
      · exact Or.inl h81
      · refine Or.inr ⟨h100, ?_⟩
        have hinv := inv_foldl lines initState inv_initState
        rw [hbuf]
        exact ⟨List.length_pos.mpr hne, hinv.1⟩

/-- C4 witness: at the state reached from the single line `1`, a line
parsing to 200 appends nothing, and the grid `[2]` collected from `2,100`
is nonempty with at most 81 cells. -/
theorem claim_C4_witness :
    (processLine (["1"].foldl processLine initState) "200").grids =
        (["1"].foldl processLine initState).grids ∧
      1 ≤ [(2 : Int)].length ∧ [(2 : Int)].length ≤ 81 :=
  ⟨claim_C4_buffer_invariant.2.2.1 ["1"] "200" (by decide),
   claim_C4_buffer_invariant.2.2.2.2 ["2", "100"] [2] (by decide)⟩

/-- C5: a line parsing to 100 flushes a nonempty buffer exactly as it stands
(no truncation), resets the buffer whether or not the flush happened, and
the value 100 itself is never stored in any collected grid. -/
theorem claim_C5_marker_100_flush :
    (∀ (st : CollectState) (l : String), pyInt? (pyStrip l) = some 100 →
      processLine st l =
        ⟨[], if st.current_grid ≠ [] then st.grids ++ [st.current_grid]
             else st.grids⟩) ∧
    (∀ (lines : List String) (g : List Int), g ∈ collect lines →
      (100 : Int) ∉ g) := by
  constructor
  · intro st l h
    rw [processLine_parsed st l 100 h, processNum_100]
  · intro lines g hg hv
    have := (mem_collect hg).2 100 hv
    omega

/-- C5 witness: on the line `100` a nonempty buffer `[1]` is flushed as-is
and the buffer is cleared; the grid `[1]` collected from `1,100` does not
contain 100. -/
theorem claim_C5_witness :
    processLine ⟨[(1 : Int)], []⟩ "100" =
        ⟨[], if [(1 : Int)] ≠ [] then ([] : List (List Int)) ++ [[(1 : Int)]] else []⟩ ∧
      (100 : Int) ∉ [(1 : Int)] :=
  ⟨claim_C5_marker_100_flush.1 ⟨[1], []⟩ "100" (by decide),
   claim_C5_marker_100_flush.2 ["1", "100"] [1] (by decide)⟩

/-- C6: an input of exactly 81 lines, each parsing to an integer in 0..99,
collects exactly one grid, equal to those 81 values in input order. -/
theorem claim_C6_exactly_81_cells (lines : List String)
    (h81 : lines.length = 81) (hall : ∀ l ∈ lines, isCellLine l = true) :
    collect lines = [lines.map cellVal] := by
  have hfold := foldl_cells lines initState hall
    (by simp [initState, h81]) (by simp [initState])
  rw [collect_eq_grids, hfold, if_pos (by simp [initState, h81])]
  simp [initState]

/-- C6 witness: 81 lines `7` collect the single grid of 81 sevens. -/
theorem claim_C6_witness :
    (List.replicate 81 "7").length = 81 ∧
      collect (List.replicate 81 "7") = [(List.replicate 81 "7").map cellVal] :=
  ⟨by simp,
   claim_C6_exactly_81_cells _ (by simp)
     (fun l hl => by rw [List.eq_of_mem_replicate hl]; decide)⟩

/-- C9: a line that is blank (after stripping), that does not parse as an
integer, or that parses to a negative value or to a value ≥ 100 other than
100 and 200, leaves the collector state (buffer and collection) unchanged;
`processLine` is total, so no error is surfaced. -/
theorem claim_C9_noise_lines_ignored (st : CollectState) (l : String)
    (h : pyStrip l = "" ∨ pyInt? (pyStrip l) = none ∨
      ∃ n, pyInt? (pyStrip l) = some n ∧
        (n < 0 ∨ (100 ≤ n ∧ n ≠ 100 ∧ n ≠ 200))) :
    processLine st l = st := by
  rcases h with h | h | ⟨n, hp, hcase⟩
  · exact processLine_blank st l h
  · exact processLine_noparse st l h
  · rw [processLine_parsed st l n hp]
    rcases hcase with h | ⟨hge, h100, h200⟩
    · exact processNum_noise st n (by omega) (by omega) (Or.inl h)
    · exact processNum_noise st n h100 h200 (Or.inr hge)

/-- C9 witness: the lines `hello`, `-1` and `150` each leave a sample state
unchanged. -/
theorem claim_C9_witness :
    processLine ⟨[(1 : Int)], [[2]]⟩ "hello" = ⟨[(1 : Int)], [[2]]⟩ ∧
      processLine ⟨[(1 : Int)], [[2]]⟩ "-1" = ⟨[(1 : Int)], [[2]]⟩ ∧
      processLine ⟨[(1 : Int)], [[2]]⟩ "150" = ⟨[(1 : Int)], [[2]]⟩ :=
  ⟨claim_C9_noise_lines_ignored _ _ (Or.inr (Or.inl (by decide))),
   claim_C9_noise_lines_ignored _ _
     (Or.inr (Or.inr ⟨-1, by decide, Or.inl (by decide)⟩)),
   claim_C9_noise_lines_ignored _ _
     (Or.inr (Or.inr ⟨150, by decide, Or.inr (by decide)⟩))⟩

/-- C10: whenever the collector produced at least three grids, the driver
renders only the first grid (initial label) and the second grid (solved
label); the output does not depend on any grid from the third onward. -/
theorem claim_C10_extra_grids_ignored (lines : List String)
    (h : 3 ≤ (collect lines).length) :
    format_sudoku lines =
      print_grid "Начальная сетка:" ((collect lines).getD 0 []) ++
        print_grid "Решенная сетка:" ((collect lines).getD 1 []) :=
  format_sudoku_two (by omega)

/-- C10 witness: the input `1,100,2,100,3,100` collects three grids, and the
driver's output is the two renderings of `[1]` and `[2]` only. -/
theorem claim_C10_witness :
    3 ≤ (collect ["1", "100", "2", "100", "3", "100"]).length ∧
      format_sudoku ["1", "100", "2", "100", "3", "100"] =
        print_grid "Начальная сетка:"
            ((collect ["1", "100", "2", "100", "3", "100"]).getD 0 []) ++
          print_grid "Решенная сетка:"
            ((collect ["1", "100", "2", "100", "3", "100"]).getD 1 []) :=
  ⟨by decide, claim_C10_extra_grids_ignored _ (by decide)⟩

/-- C3 (amended): whenever at least one grid is collected the driver renders
the first grid under the label `"Начальная сетка:"` (Russian for "Initial
grid:"), and whenever at least two are collected it renders the second under
`"Решенная сетка:"` (Russian for "Solved grid:"); the literal English labels
of the claim never appear (see `claim_C3_counterexample`). -/
theorem claim_C3_driver_labels (lines : List String) :
    (∀ g0, (collect lines)[0]? = some g0 →
      ∃ rest, format_sudoku lines = print_grid "Начальная сетка:" g0 ++ rest) ∧
    (∀ g0 g1, (collect lines)[0]? = some g0 → (collect lines)[1]? = some g1 →
      format_sudoku lines =
        print_grid "Начальная сетка:" g0 ++ print_grid "Решенная сетка:" g1) := by
  constructor
  · intro g0 h0
    have hg0 : (collect lines).getD 0 [] = g0 := getD_of_getElem? [] h0
    have hlen : 0 < (collect lines).length := (List.getElem?_eq_some.mp h0).1
    by_cases hone : (collect lines).length = 1
    · by_cases h81 : ((collect lines).getD 0 []).length = 81
      · exact ⟨["", noteLine], by rw [format_sudoku_one_81 hone h81, hg0]⟩
      · exact ⟨[], by rw [format_sudoku_one_short hone h81, hg0, List.append_nil]⟩
    · exact ⟨print_grid "Решенная сетка:" ((collect lines).getD 1 []),
        by rw [format_sudoku_two (by omega), hg0]⟩
  · intro g0 g1 h0 h1
    have hg0 : (collect lines).getD 0 [] = g0 := getD_of_getElem? [] h0
    have hg1 : (collect lines).getD 1 [] = g1 := getD_of_getElem? [] h1
    have hlen : 1 < (collect lines).length := (List.getElem?_eq_some.mp h1).1
    rw [format_sudoku_two (by omega), hg0, hg1]

/-- C3 witness: on the input `5,100,6,100` two grids are collected and the
driver output is the two labelled renderings. -/
theorem claim_C3_witness :
    format_sudoku ["5", "100", "6", "100"] =
      print_grid "Начальная сетка:" [5] ++ print_grid "Решенная сетка:" [6] :=
  (claim_C3_driver_labels ["5", "100", "6", "100"]).2 [5] [6]
    (by decide) (by decide)

/-- C3 counterexample: on the input `5,100,6,100` at least one grid is
collected, yet no output line is the literal label `"Initial grid:"` or
`"Solved grid:"`; the labels actually printed are the Russian ones. -/
theorem claim_C3_counterexample :
    1 ≤ (collect ["5", "100", "6", "100"]).length ∧
      "Initial grid:" ∉ format_sudoku ["5", "100", "6", "100"] ∧
      "Solved grid:" ∉ format_sudoku ["5", "100", "6", "100"] ∧
      "Начальная сетка:" ∈ format_sudoku ["5", "100", "6", "100"] ∧
      "Решенная сетка:" ∈ format_sudoku ["5", "100", "6", "100"] := by decide

/-- C7: the missing-solved-grid note is the last printed line exactly when
one single grid was collected and its length is exactly 81; when the single
collected grid is shorter than 81 the output is just the initial rendering,
with no note. -/
theorem claim_C7_note_iff (lines : List String) :
    (((collect lines).length = 1 ∧ ((collect lines).getD 0 []).length = 81) ↔
      (format_sudoku lines).getLast? = some noteLine) ∧
    ((collect lines).length = 1 → ((collect lines).getD 0 []).length < 81 →
      format_sudoku lines =
        print_grid "Начальная сетка:" ((collect lines).getD 0 [])) := by
  constructor
  · constructor
    · rintro ⟨h1, h2⟩
      rw [format_sudoku_one_81 h1 h2,
        List.getLast?_append_of_ne_nil _ (by simp)]
      rfl
    · intro h
      by_cases h1 : (collect lines).length = 1
      · by_cases h2 : ((collect lines).getD 0 []).length = 81
        · exact ⟨h1, h2⟩
        · rw [format_sudoku_one_short h1 h2, print_grid_getLast?] at h
          exact absurd (Option.some.inj h) (by decide)
      · by_cases h0 : (collect lines).length = 0
        · rw [format_sudoku_zero h0] at h
          simp at h
        · rw [format_sudoku_two (by omega),
            List.getLast?_append_of_ne_nil _ (by unfold print_grid; simp),
            print_grid_getLast?] at h
          exact absurd (Option.some.inj h) (by decide)
  · intro h1 h2
    exact format_sudoku_one_short h1 (by omega)

/-- C7 witness: 81 lines `1` collect a single 81-cell grid, and the note is
indeed the last output line. -/
theorem claim_C7_witness :
    ((collect (List.replicate 81 "1")).length = 1 ∧
      ((collect (List.replicate 81 "1")).getD 0 []).length = 81) ∧
      (format_sudoku (List.replicate 81 "1")).getLast? = some noteLine := by
  have h : (collect (List.replicate 81 "1")).length = 1 ∧
      ((collect (List.replicate 81 "1")).getD 0 []).length = 81 := by
    constructor <;> decide
  exact ⟨h, (claim_C7_note_iff _).1.mp h⟩

/-- C8: `print_grid` emits exactly a blank line, a 37-`=` line, the label, a
37-`=` line, the nine formatted rows with a 35-`-` separator before rows 3
and 6, a 37-`=` line and a blank line; each row is `"| "`, nine width-2
right-aligned cells each followed by a space, with `"| "` inserted before
columns 3 and 6, and a trailing `"|"`; a stored 0 and an index beyond the
grid's length both display as the placeholder `.`. -/
theorem claim_C8_print_grid_layout :
    (∀ (label : String) (grid : List Int),
      print_grid label grid =
        ["", eqLine, label, eqLine,
         rowStr grid 0, rowStr grid 1, rowStr grid 2, dashLine,
         rowStr grid 3, rowStr grid 4, rowStr grid 5, dashLine,
         rowStr grid 6, rowStr grid 7, rowStr grid 8, eqLine, ""]) ∧
    (eqLine.length = 37 ∧ ∀ c ∈ eqLine.data, c = '=') ∧
    (dashLine.length = 35 ∧ ∀ c ∈ dashLine.data, c = '-') ∧
    (∀ (grid : List Int) (i : Nat),
      rowStr grid i =
        "| " ++ cellStr grid (i * 9) ++ cellStr grid (i * 9 + 1) ++
          cellStr grid (i * 9 + 2) ++ "| " ++ cellStr grid (i * 9 + 3) ++
          cellStr grid (i * 9 + 4) ++ cellStr grid (i * 9 + 5) ++ "| " ++
          cellStr grid (i * 9 + 6) ++ cellStr grid (i * 9 + 7) ++
          cellStr grid (i * 9 + 8) ++ "|") ∧
    (∀ (grid : List Int) (idx : Nat) (v : Int), grid[idx]? = some v →
      cellStr grid idx = padLeft2 (if v = 0 then "." else toString v) ++ " ") ∧
    (∀ (grid : List Int) (idx : Nat), grid.length ≤ idx →
      cellStr grid idx = " . ") := by
  refine ⟨?_, ⟨by decide, by decide⟩, ⟨by decide, by decide⟩, ?_, ?_, ?_⟩
  · intro label grid
    simp only [print_grid, List.range_succ, List.foldl_append, List.foldl_cons,
      List.foldl_nil]
    norm_num
  · intro grid i
    simp only [rowStr, List.range_succ, List.foldl_append, List.foldl_cons,
      List.foldl_nil]
    norm_num
  · intro grid idx v h
    unfold cellStr displayVal
    rw [h]
  · intro grid idx h
    unfold cellStr displayVal
    rw [List.getElem?_eq_none h]
    rfl

/-- C8 witness: the cell-display hypotheses are satisfiable: a stored 5
displays right-aligned, a stored 0 and an out-of-range index display the
placeholder. -/
theorem claim_C8_witness :
    cellStr [5] 0 = padLeft2 (if (5 : Int) = 0 then "." else toString (5 : Int)) ++ " " ∧
      cellStr [0] 0 = padLeft2 (if (0 : Int) = 0 then "." else toString (0 : Int)) ++ " " ∧
      cellStr [5] 1 = " . " :=
  ⟨claim_C8_print_grid_layout.2.2.2.2.1 [5] 0 5 (by decide),
   claim_C8_print_grid_layout.2.2.2.2.1 [0] 0 0 (by decide),
   claim_C8_print_grid_layout.2.2.2.2.2 [5] 1 (by decide)⟩

end FormatSudoku
